import Mathlib

/-!
Shallow embedding of `src/pdns-loadtest.py` (PowerDNS API load-test tool).

Durations (Python floats measuring wall-clock seconds) are modelled as
rationals `ℚ`.  The network is modelled as an oracle: each HTTP request
yields an `HttpResult` (an optional status code — `none` models a
`requests.RequestException`, i.e. no response — together with the measured
elapsed time).  Randomness (`random.choices`) is modelled as an oracle
giving, for each call and each position, an index into the population.
-/

namespace PDNS

/-- Outcome of one `_make_request` call: `status = none` models a
`requests.RequestException` (no response object); otherwise the HTTP status
code.  `time` is the measured elapsed wall-clock duration in seconds. -/
structure HttpResult where
  status : Option Nat
  time : ℚ
deriving DecidableEq

/-- One element of the JSON array returned by the `zones` listing endpoint;
only the `name` field is consumed by the script. -/
structure Zone where
  name : String
deriving DecidableEq

/-- The network oracle for the delete pipeline: the result of the single
`GET zones` listing request (`listResult` with body `listBody`, the body
being consumed only on status 200), and the responder for
`DELETE zones/{name}` requests, keyed by the (dot-terminated) zone name. -/
structure Network where
  listResult : HttpResult
  listBody : List Zone
  deleteResp : String → HttpResult

/-- `string.ascii_lowercase` -/
def ascii_lowercase : List Char := "abcdefghijklmnopqrstuvwxyz".toList

/-- `string.digits` -/
def digitChars : List Char := "0123456789".toList

/-- The population `string.ascii_lowercase + string.digits` from which
`generate_random_suffix` draws. -/
def suffixAlphabet : List Char := ascii_lowercase ++ digitChars

/-- `PDNSLoadTest.generate_random_suffix`: `random.choices(population, k=length)`
joined to a string.  The oracle `pick` gives the chosen population index for
each of the `length` positions (the population has 36 symbols). -/
def generate_random_suffix (pick : Nat → Fin 36) (length : Nat) : String :=
  String.mk ((List.range length).map (fun i => suffixAlphabet.getD (pick i).val 'a'))

/-- The zone-name dot normalization done at the top of `create_zone` and
`delete_zone`: ensure the name ends with `"."`. -/
def ensureDot (zone_name : String) : String :=
  if ['.'].isSuffixOf zone_name.data then zone_name else zone_name ++ "."

/-- `PDNSLoadTest.create_zone`: normalizes the name, performs one
`POST zones` request (modelled by the oracle `net`, keyed by the normalized
zone name carried in the request body), and returns
`(success, response_time)`: success iff a response arrived with status
201 or 200. -/
def create_zone (net : String → HttpResult) (zone_name : String) : Bool × ℚ :=
  let zn := ensureDot zone_name
  let r := net zn
  match r.status with
  | some code => (code == 201 || code == 200, r.time)
  | none => (false, r.time)

/-- `PDNSLoadTest.delete_zone`: normalizes the name, performs one
`DELETE zones/{name}` request, and returns `(success, response_time)`:
success iff a response arrived with status 204. -/
def delete_zone (net : String → HttpResult) (zone_name : String) : Bool × ℚ :=
  let zn := ensureDot zone_name
  let r := net zn
  match r.status with
  | some code => (code == 204, r.time)
  | none => (false, r.time)

/-- `PDNSLoadTest.list_zones`: one `GET zones` request; returns the JSON body
and the response time when a response with status 200 arrived, otherwise an
empty list (after printing a diagnostic) together with the response time. -/
def list_zones (net : Network) : List Zone × ℚ :=
  match net.listResult.status with
  | some code =>
      if code = 200 then (net.listBody, net.listResult.time)
      else ([], net.listResult.time)
  | none => ([], net.listResult.time)

/-- `PDNSLoadTest.getZonesWithPrefix`: list all zones and keep the names
starting with the configured prefix, in listing order. -/
def getZonesWithPrefix (net : Network) (zonePrefix : String) : List String :=
  ((list_zones net).1.filter (fun zone => zonePrefix.data.isPrefixOf zone.name.data)).map Zone.name

/-- The zone-name list built at the top of `create_zones`:
`f"{self.zonePrefix}{self.generate_random_suffix()}.com"` for each of
`count` iterations; the oracle `pick` is indexed first by the iteration. -/
def zone_names (zonePrefix : String) (count : Nat) (pick : Nat → Nat → Fin 36) :
    List String :=
  (List.range count).map
    (fun j => zonePrefix ++ generate_random_suffix (pick j) 8 ++ ".com")

/-- The loop body shared by both tally loops in `create_zones` and
`deleteZonesWithPrefix`: bump the success or failure counter and append
the response time (appended unconditionally, for failed operations too). -/
def tallyStep (acc : Nat × Nat × List ℚ) (r : Bool × ℚ) : Nat × Nat × List ℚ :=
  if r.1 then (acc.1 + 1, acc.2.1, acc.2.2 ++ [r.2])
  else (acc.1, acc.2.1 + 1, acc.2.2 ++ [r.2])

/-- The parallel branch: `executor.map` collects one result per input name in
input order; the results list is then folded by the tally loop.
Returns `(successful, failed, response_times)`. -/
def tallyResults (results : List (Bool × ℚ)) : Nat × Nat × List ℚ :=
  results.foldl tallyStep (0, 0, [])

/-- The sequential branch: invoke the executor once per name, in input order,
tallying as each call returns.  Returns `(successful, failed, response_times)`. -/
def tallySequential (exec : String → Bool × ℚ) (names : List String) :
    Nat × Nat × List ℚ :=
  names.foldl (fun acc name => tallyStep acc (exec name)) (0, 0, [])

/-- Python `min(xs)` guarded by `if xs else 0` as in the metrics dict. -/
def pyMin (xs : List ℚ) : ℚ :=
  match xs with
  | [] => 0
  | x :: rest => rest.foldl min x

/-- Python `max(xs)` guarded by `if xs else 0` as in the metrics dict. -/
def pyMax (xs : List ℚ) : ℚ :=
  match xs with
  | [] => 0
  | x :: rest => rest.foldl max x

/-- `statistics.mean(xs)` (sum divided by length) guarded by `if xs else 0`. -/
def pyMean (xs : List ℚ) : ℚ :=
  match xs with
  | [] => 0
  | _ => xs.sum / (xs.length : ℚ)

/-- Python `sorted(data)`: a stable comparison sort; modelled by insertion
sort on `≤`. -/
def pySorted (xs : List ℚ) : List ℚ := List.insertionSort (· ≤ ·) xs

/-- `statistics.median(xs)` guarded by `if xs else 0`: sort, take the middle
element for odd length, the average of the two middle elements for even
length. -/
def pyMedian (xs : List ℚ) : ℚ :=
  let data := pySorted xs
  let n := data.length
  if n = 0 then 0
  else if n % 2 = 1 then data.getD (n / 2) 0
  else (data.getD (n / 2 - 1) 0 + data.getD (n / 2) 0) / 2

/-- The `response_times` sub-dictionary of a metrics dict. -/
structure ResponseTimes where
  min : ℚ
  max : ℚ
  avg : ℚ
  median : ℚ
deriving DecidableEq

/-- A metrics dictionary as returned by `create_zones` /
`deleteZonesWithPrefix`.  The zero-work early return of
`deleteZonesWithPrefix` omits the `average_time_per_zone` and
`response_times` keys, hence the `Option`s. -/
structure Metrics where
  operation : String
  total_zones : Nat
  successful : Nat
  failed : Nat
  total_time_seconds : ℚ
  average_time_per_zone : Option ℚ
  response_times : Option ResponseTimes
deriving DecidableEq

/-- Build the `response_times` sub-dictionary exactly as the source does. -/
def mkResponseTimes (response_times : List ℚ) : ResponseTimes :=
  { min := pyMin response_times
    max := pyMax response_times
    avg := pyMean response_times
    median := pyMedian response_times }

/-- `PDNSLoadTest.create_zones`: generate `count` zone names, run
`create_zone` over them (via `executor.map` into the tally loop when
`parallel and self.max_workers > 1`, else the strictly sequential loop), and
build the metrics dict.  `total_time` stands for the measured batch
wall-clock time `time.time() - start_time`. -/
def create_zones (net : String → HttpResult) (zonePrefix : String) (count : Nat)
    (pick : Nat → Nat → Fin 36) (parallel : Bool) (max_workers : Nat)
    (total_time : ℚ) : Metrics :=
  let names := zone_names zonePrefix count pick
  let tally :=
    if parallel ∧ 1 < max_workers then tallyResults (names.map (create_zone net))
    else tallySequential (create_zone net) names
  { operation := "create"
    total_zones := count
    successful := tally.1
    failed := tally.2.1
    total_time_seconds := total_time
    average_time_per_zone := some (if 0 < count then total_time / (count : ℚ) else 0)
    response_times := some (mkResponseTimes tally.2.2) }

/-- `PDNSLoadTest.deleteZonesWithPrefix`: list-and-filter the zones to
delete; on an empty filtered set return the zero-work dict immediately
(no `average_time_per_zone` / `response_times` keys, `total_time_seconds`
literally 0); otherwise run `delete_zone` over them (parallel map or
sequential loop) and build the metrics dict. -/
def deleteZonesWithPrefix (net : Network) (zonePrefix : String)
    (parallel : Bool) (max_workers : Nat) (total_time : ℚ) : Metrics :=
  let zones_to_delete := getZonesWithPrefix net zonePrefix
  let count := zones_to_delete.length
  if count = 0 then
    { operation := "delete"
      total_zones := 0
      successful := 0
      failed := 0
      total_time_seconds := 0
      average_time_per_zone := none
      response_times := none }
  else
    let tally :=
      if parallel ∧ 1 < max_workers then
        tallyResults (zones_to_delete.map (delete_zone net.deleteResp))
      else tallySequential (delete_zone net.deleteResp) zones_to_delete
    { operation := "delete"
      total_zones := count
      successful := tally.1
      failed := tally.2.1
      total_time_seconds := total_time
      average_time_per_zone := some (if 0 < count then total_time / (count : ℚ) else 0)
      response_times := some (mkResponseTimes tally.2.2) }

/-- The sequence of `DELETE zones/{name}` request paths issued by one run of
`deleteZonesWithPrefix`: none on the zero-work early return, otherwise one
per filtered zone (each `delete_zone` call issues exactly one request, to the
dot-normalized name; in both the parallel and the sequential branch the set
of calls is the same). -/
def delete_requests (net : Network) (zonePrefix : String) : List String :=
  let zones_to_delete := getZonesWithPrefix net zonePrefix
  if zones_to_delete.length = 0 then []
  else zones_to_delete.map (fun zone_name => "zones/" ++ ensureDot zone_name)

/-- The parsed command-line arguments consumed by `main`
(`parse_arguments`). -/
structure Args where
  url : String
  key : String
  server_id : String
  zonePrefix : String
  count : Nat
  timeout : Nat
  no_verify_ssl : Bool
  parallel : Bool
  workers : Nat
  create_only : Bool
  delete_only : Bool
  list_only : Bool

/-- An observable effect of `main`: the mutual-exclusion error print, a
process exit, the construction of the `PDNSLoadTest` client (and with it the
HTTP session), or a single HTTP request (endpoint path relative to the API
base). -/
inductive Event where
  | printError (msg : String)
  | exitCode (code : Nat)
  | constructClient
  | httpGet (endpoint : String)
  | httpPost (endpoint : String)
  | httpDelete (endpoint : String)
deriving DecidableEq

/-- The HTTP requests issued by one `create_zones` run: one `POST zones`
per generated zone name. -/
def create_zones_events (args : Args) (pick : Nat → Nat → Fin 36) : List Event :=
  (zone_names args.zonePrefix args.count pick).map (fun _ => Event.httpPost "zones")

/-- The HTTP requests issued by one `deleteZonesWithPrefix` run: the
`GET zones` listing, then one `DELETE zones/{name}` per filtered zone (none
when the filtered set is empty, by the early return). -/
def delete_zones_events (net : Network) (zonePrefix : String) : List Event :=
  Event.httpGet "zones" :: (delete_requests net zonePrefix).map Event.httpDelete

/-- `main`, projected onto its effect trace (error print / exit / client
construction / HTTP requests; ordinary report printing is not modelled).
The `--create-only`/`--delete-only` validation runs first; only past it is
the `PDNSLoadTest` client constructed, and then: list-only mode performs just
the listing, otherwise a create batch (unless `--delete-only`) followed by a
delete batch (unless `--create-only`). -/
def mainEvents (args : Args) (net : Network) (pick : Nat → Nat → Fin 36) :
    List Event :=
  if args.create_only ∧ args.delete_only then
    [Event.printError "Error: Cannot specify both --create-only and --delete-only",
     Event.exitCode 1]
  else
    Event.constructClient ::
      (if args.list_only then [Event.httpGet "zones"]
       else
         (if args.delete_only then [] else create_zones_events args pick) ++
         (if args.create_only then [] else delete_zones_events net args.zonePrefix))

/-! ### Concrete fixtures used to instantiate the theorems -/

/-- A network whose `GET zones` listing request gets no response at all
(a `requests.RequestException`), and whose deletes also fail. -/
def netNoResponse : Network :=
  { listResult := { status := none, time := 0 }
    listBody := []
    deleteResp := fun _ => { status := none, time := 0 } }

/-- A network whose listing succeeds with one zone that does not carry the
`loadtest-` prefix; deletes would answer 204. -/
def netOnlyOther : Network :=
  { listResult := { status := some 200, time := 1 }
    listBody := [{ name := "other.com." }]
    deleteResp := fun _ => { status := some 204, time := 1 } }

/-- A network whose listing succeeds with one `loadtest-` zone and one other
zone; deletes answer 204. -/
def netTwoZones : Network :=
  { listResult := { status := some 200, time := 1 }
    listBody := [{ name := "loadtest-abc.com." }, { name := "other.com." }]
    deleteResp := fun _ => { status := some 204, time := 1 } }

/-- The choice oracle that always picks the first population symbol
(suffix "aaaaaaaa" on every iteration). -/
def pickFirst : Nat → Nat → Fin 36 := fun _ _ => 0

/-- The choice oracle picking population index `j` (the iteration number) at
every position: iteration 0 yields suffix "aaaaaaaa", iteration 1
"bbbbbbbb", and so on. -/
def pickIter : Nat → Nat → Fin 36 := fun j _ => ⟨j % 36, Nat.mod_lt _ (by omega)⟩

/-- A POST responder giving the four names generated by `pickIter` (for the
`loadtest-` prefix) the distinct response times 0.1, 0.2, 0.3, 0.4 seconds,
the third call failing with status 500. -/
def netCreate4 : String → HttpResult := fun zn =>
  if zn = "loadtest-aaaaaaaa.com." then { status := some 201, time := 1/10 }
  else if zn = "loadtest-bbbbbbbb.com." then { status := some 201, time := 2/10 }
  else if zn = "loadtest-cccccccc.com." then { status := some 500, time := 3/10 }
  else { status := some 201, time := 4/10 }

/-- Parsed arguments with both `--create-only` and `--delete-only` set. -/
def argsBoth : Args :=
  { url := "http://localhost:8081", key := "secret", server_id := "localhost",
    zonePrefix := "loadtest-", count := 10, timeout := 30,
    no_verify_ssl := false, parallel := false, workers := 10,
    create_only := true, delete_only := true, list_only := false }

/-! ### Helper lemmas about the tally loops -/

/-- Folding the tally loop body over a results list adds the list's length to
the two counters and appends all durations (of successes and failures alike)
to the accumulated response-time list. -/
lemma foldl_tallyStep (l : List (Bool × ℚ)) :
    ∀ acc : Nat × Nat × List ℚ,
      (l.foldl tallyStep acc).1 + (l.foldl tallyStep acc).2.1 =
        acc.1 + acc.2.1 + l.length ∧
      (l.foldl tallyStep acc).2.2 = acc.2.2 ++ l.map Prod.snd := by
  induction l with
  | nil => intro acc; simp
  | cons r rest ih =>
      intro acc
      simp only [List.foldl_cons, List.map_cons, List.length_cons]
      rcases ih (tallyStep acc r) with ⟨h1, h2⟩
      refine ⟨?_, ?_⟩
      · rw [h1]; unfold tallyStep; split <;> simp <;> omega
      · rw [h2]; unfold tallyStep; split <;> simp

/-- The two counters of a tally sum to the number of results. -/
lemma tallyResults_counts (results : List (Bool × ℚ)) :
    (tallyResults results).1 + (tallyResults results).2.1 = results.length := by
  have h := foldl_tallyStep results (0, 0, [])
  simpa [tallyResults] using h.1

/-- The response-time list of a tally is exactly the durations of all the
results, failed ones included, in order. -/
lemma tallyResults_times (results : List (Bool × ℚ)) :
    (tallyResults results).2.2 = results.map Prod.snd := by
  have h := foldl_tallyStep results (0, 0, [])
  simpa [tallyResults] using h.2

/-- The sequential loop computes the same tally as mapping the executor over
the names first (as `executor.map` does) and then folding. -/
lemma tallySequential_eq (exec : String → Bool × ℚ) (names : List String) :
    tallySequential exec names = tallyResults (names.map exec) := by
  unfold tallySequential tallyResults
  rw [List.foldl_map]

/-- `create_zones` generates one name per requested zone. -/
lemma zone_names_length (zonePrefix : String) (count : Nat)
    (pick : Nat → Nat → Fin 36) :
    (zone_names zonePrefix count pick).length = count := by
  simp [zone_names]

/-- Both the parallel and the sequential branch of `create_zones` produce the
tally of the mapped results, so `create_zones` has this branch-free normal
form. -/
lemma create_zones_eq_tally (net : String → HttpResult) (zonePrefix : String)
    (count : Nat) (pick : Nat → Nat → Fin 36) (parallel : Bool) (max_workers : Nat)
    (total_time : ℚ) :
    create_zones net zonePrefix count pick parallel max_workers total_time =
      { operation := "create"
        total_zones := count
        successful :=
          (tallyResults ((zone_names zonePrefix count pick).map (create_zone net))).1
        failed :=
          (tallyResults ((zone_names zonePrefix count pick).map (create_zone net))).2.1
        total_time_seconds := total_time
        average_time_per_zone :=
          some (if 0 < count then total_time / (count : ℚ) else 0)
        response_times :=
          some (mkResponseTimes
            (tallyResults ((zone_names zonePrefix count pick).map (create_zone net))).2.2) } := by
  simp only [create_zones]
  rw [tallySequential_eq]
  split <;> rfl

/-- The zero-work early return of `deleteZonesWithPrefix`. -/
lemma delete_zones_empty (net : Network) (zonePrefix : String) (parallel : Bool)
    (max_workers : Nat) (total_time : ℚ)
    (h : getZonesWithPrefix net zonePrefix = []) :
    deleteZonesWithPrefix net zonePrefix parallel max_workers total_time =
      { operation := "delete"
        total_zones := 0
        successful := 0
        failed := 0
        total_time_seconds := 0
        average_time_per_zone := none
        response_times := none } := by
  simp [deleteZonesWithPrefix, h]

/-- On a non-empty filtered set, both branches of `deleteZonesWithPrefix`
produce the tally of the mapped results, giving this branch-free normal
form. -/
lemma delete_zones_nonempty (net : Network) (zonePrefix : String)
    (parallel : Bool) (max_workers : Nat) (total_time : ℚ)
    (h : getZonesWithPrefix net zonePrefix ≠ []) :
    deleteZonesWithPrefix net zonePrefix parallel max_workers total_time =
      { operation := "delete"
        total_zones := (getZonesWithPrefix net zonePrefix).length
        successful :=
          (tallyResults ((getZonesWithPrefix net zonePrefix).map
            (delete_zone net.deleteResp))).1
        failed :=
          (tallyResults ((getZonesWithPrefix net zonePrefix).map
            (delete_zone net.deleteResp))).2.1
        total_time_seconds := total_time
        average_time_per_zone :=
          some (if 0 < (getZonesWithPrefix net zonePrefix).length then
            total_time / ((getZonesWithPrefix net zonePrefix).length : ℚ) else 0)
        response_times :=
          some (mkResponseTimes
            (tallyResults ((getZonesWithPrefix net zonePrefix).map
              (delete_zone net.deleteResp))).2.2) } := by
  simp only [deleteZonesWithPrefix]
  rw [tallySequential_eq, if_neg (by simpa using h)]
  split <;> rfl

/-- The suffix population has 36 symbols (26 lowercase letters + 10 digits). -/
lemma suffixAlphabet_length : suffixAlphabet.length = 36 := rfl

/-- `getD` at an index inside the list returns a member of the list. -/
lemma getD_mem {α : Type} : ∀ (l : List α) (n : Nat) (d : α),
    n < l.length → l.getD n d ∈ l
  | a :: l, 0, _, _ => List.mem_cons_self a l
  | a :: l, n + 1, d, h =>
      List.mem_cons_of_mem a (getD_mem l n d (by simpa using h))

/-! ### Claim theorems -/

/-- C1: for every batch of N descriptors, the metrics record satisfies
totalCount = N and successCount + failureCount = N — for create batches
(N = count) and delete batches (N = size of the filtered set), in both
sequential and parallel mode. -/
theorem counts_invariant (netC : String → HttpResult) (zonePrefix : String)
    (count : Nat) (pick : Nat → Nat → Fin 36) (parallel : Bool)
    (max_workers : Nat) (total_time : ℚ) (netD : Network) (delPrefix : String) :
    ((create_zones netC zonePrefix count pick parallel max_workers total_time).total_zones
        = count ∧
      (create_zones netC zonePrefix count pick parallel max_workers total_time).successful +
        (create_zones netC zonePrefix count pick parallel max_workers total_time).failed
        = count) ∧
    ((deleteZonesWithPrefix netD delPrefix parallel max_workers total_time).total_zones
        = (getZonesWithPrefix netD delPrefix).length ∧
      (deleteZonesWithPrefix netD delPrefix parallel max_workers total_time).successful +
        (deleteZonesWithPrefix netD delPrefix parallel max_workers total_time).failed
        = (deleteZonesWithPrefix netD delPrefix parallel max_workers total_time).total_zones) := by
  constructor
  · rw [create_zones_eq_tally]
    refine ⟨rfl, ?_⟩
    show (tallyResults _).1 + (tallyResults _).2.1 = count
    rw [tallyResults_counts]
    simp [zone_names_length]
  · by_cases h : getZonesWithPrefix netD delPrefix = []
    · rw [delete_zones_empty _ _ _ _ _ h, h]
      exact ⟨rfl, rfl⟩
    · rw [delete_zones_nonempty _ _ _ _ _ h]
      refine ⟨rfl, ?_⟩
      show (tallyResults _).1 + (tallyResults _).2.1 = _
      rw [tallyResults_counts]
      simp

/-- C9: with the same deterministic per-operation outcomes (network oracle),
parallel mode produces exactly the same metrics record as sequential mode,
for create batches and delete batches alike. -/
theorem parallel_sequential_agree (netC : String → HttpResult)
    (zonePrefix : String) (count : Nat) (pick : Nat → Nat → Fin 36)
    (max_workers : Nat) (total_time : ℚ) (netD : Network) (delPrefix : String) :
    create_zones netC zonePrefix count pick true max_workers total_time =
      create_zones netC zonePrefix count pick false max_workers total_time ∧
    deleteZonesWithPrefix netD delPrefix true max_workers total_time =
      deleteZonesWithPrefix netD delPrefix false max_workers total_time := by
  constructor
  · rw [create_zones_eq_tally, create_zones_eq_tally]
  · by_cases h : getZonesWithPrefix netD delPrefix = []
    · rw [delete_zones_empty _ _ _ _ _ h, delete_zones_empty _ _ _ _ _ h]
    · rw [delete_zones_nonempty _ _ _ _ _ h, delete_zones_nonempty _ _ _ _ _ h]

/-- C3 (amended): a create batch with count = 0 returns totalCount = 0 with
all-zero latency statistics, while a delete batch with an empty filtered set
returns totalCount = 0 with the latency-statistics (and average-time) fields
omitted rather than zeroed; both are ordinary returns, never an error. -/
theorem empty_batch_metrics (netC : String → HttpResult) (zonePrefix : String)
    (pick : Nat → Nat → Fin 36) (parallel : Bool) (max_workers : Nat)
    (total_time : ℚ) (netD : Network) (delPrefix : String) (parD : Bool)
    (wD : Nat) (tD : ℚ) (h : getZonesWithPrefix netD delPrefix = []) :
    create_zones netC zonePrefix 0 pick parallel max_workers total_time =
      { operation := "create", total_zones := 0, successful := 0, failed := 0,
        total_time_seconds := total_time, average_time_per_zone := some 0,
        response_times := some { min := 0, max := 0, avg := 0, median := 0 } } ∧
    deleteZonesWithPrefix netD delPrefix parD wD tD =
      { operation := "delete", total_zones := 0, successful := 0, failed := 0,
        total_time_seconds := 0, average_time_per_zone := none,
        response_times := none } := by
  refine ⟨?_, delete_zones_empty _ _ _ _ _ h⟩
  rw [create_zones_eq_tally]
  rfl

/-- C3 witness: the amended statement at count 0 and a network whose listing
gets no response (so the delete filtered set is empty). -/
theorem empty_batch_metrics_witness :
    create_zones netCreate4 "loadtest-" 0 pickFirst false 10 7 =
      { operation := "create", total_zones := 0, successful := 0, failed := 0,
        total_time_seconds := 7, average_time_per_zone := some 0,
        response_times := some { min := 0, max := 0, avg := 0, median := 0 } } ∧
    deleteZonesWithPrefix netNoResponse "loadtest-" false 10 3 =
      { operation := "delete", total_zones := 0, successful := 0, failed := 0,
        total_time_seconds := 0, average_time_per_zone := none,
        response_times := none } :=
  empty_batch_metrics netCreate4 "loadtest-" pickFirst false 10 7 netNoResponse
    "loadtest-" false 10 3 (by decide)

/-- C3 counterexample: a delete batch whose outcome-record sequence is empty
(here the listing got no response) returns a metrics record in which the
latency statistics are absent — not the all-zero statistics the claim
asserts. -/
theorem empty_delete_latencies_absent :
    getZonesWithPrefix netNoResponse "loadtest-" = [] ∧
    (deleteZonesWithPrefix netNoResponse "loadtest-" false 10 0).total_zones = 0 ∧
    (deleteZonesWithPrefix netNoResponse "loadtest-" false 10 0).response_times = none ∧
    (deleteZonesWithPrefix netNoResponse "loadtest-" false 10 0).response_times ≠
      some { min := 0, max := 0, avg := 0, median := 0 } := by
  refine ⟨rfl, ?_, ?_, ?_⟩ <;> decide

/-- C7: when the prefix-filtered listing yields zero identifiers, the delete
batch is a no-op: it returns the zero-count metrics record and issues no
DELETE request. -/
theorem delete_empty_is_noop (net : Network) (zonePrefix : String)
    (parallel : Bool) (max_workers : Nat) (total_time : ℚ)
    (h : getZonesWithPrefix net zonePrefix = []) :
    deleteZonesWithPrefix net zonePrefix parallel max_workers total_time =
      { operation := "delete", total_zones := 0, successful := 0, failed := 0,
        total_time_seconds := 0, average_time_per_zone := none,
        response_times := none } ∧
    delete_requests net zonePrefix = [] := by
  refine ⟨delete_zones_empty _ _ _ _ _ h, ?_⟩
  simp [delete_requests, h]

/-- C7 witness: a listing that succeeds but contains no zone with the
configured prefix. -/
theorem delete_empty_is_noop_witness :
    deleteZonesWithPrefix netOnlyOther "loadtest-" true 10 2 =
      { operation := "delete", total_zones := 0, successful := 0, failed := 0,
        total_time_seconds := 0, average_time_per_zone := none,
        response_times := none } ∧
    delete_requests netOnlyOther "loadtest-" = [] :=
  delete_empty_is_noop netOnlyOther "loadtest-" true 10 2 (by decide)

/-- C10: when the listing request fails (no response, or any non-200 status),
`list_zones` returns an empty list rather than raising, the filtered set is
empty, and the delete batch degrades to the zero-count metrics record with
no DELETE request issued. -/
theorem listing_failure_degrades (net : Network) (zonePrefix : String)
    (parallel : Bool) (max_workers : Nat) (total_time : ℚ)
    (h : net.listResult.status ≠ some 200) :
    (list_zones net).1 = [] ∧
    getZonesWithPrefix net zonePrefix = [] ∧
    deleteZonesWithPrefix net zonePrefix parallel max_workers total_time =
      { operation := "delete", total_zones := 0, successful := 0, failed := 0,
        total_time_seconds := 0, average_time_per_zone := none,
        response_times := none } ∧
    delete_requests net zonePrefix = [] := by
  have hl : (list_zones net).1 = [] := by
    cases hs : net.listResult.status with
    | none => simp [list_zones, hs]
    | some code =>
        have hc : code ≠ 200 := fun hE => h (hE ▸ hs)
        simp [list_zones, hs, hc]
  have hg : getZonesWithPrefix net zonePrefix = [] := by
    simp [getZonesWithPrefix, hl]
  exact ⟨hl, hg, delete_zones_empty _ _ _ _ _ hg, by simp [delete_requests, hg]⟩

/-- C10 witness: the transport-failure listing. -/
theorem listing_failure_degrades_witness :
    (list_zones netNoResponse).1 = [] ∧
    getZonesWithPrefix netNoResponse "loadtest-" = [] ∧
    deleteZonesWithPrefix netNoResponse "loadtest-" true 10 4 =
      { operation := "delete", total_zones := 0, successful := 0, failed := 0,
        total_time_seconds := 0, average_time_per_zone := none,
        response_times := none } ∧
    delete_requests netNoResponse "loadtest-" = [] :=
  listing_failure_degrades netNoResponse "loadtest-" true 10 4 (by decide)

/-- C2: the per-operation latency statistics are computed over the durations
of every outcome record in the batch — the reported statistics equal the
statistics of the full duration list (failed operations included), for
create batches and for non-empty delete batches, in either mode. -/
theorem latencies_over_all_records (netC : String → HttpResult)
    (zonePrefix : String) (count : Nat) (pick : Nat → Nat → Fin 36)
    (parallel : Bool) (max_workers : Nat) (total_time : ℚ) (netD : Network)
    (delPrefix : String) (parD : Bool) (wD : Nat) (tD : ℚ)
    (hne : getZonesWithPrefix netD delPrefix ≠ []) :
    (create_zones netC zonePrefix count pick parallel max_workers total_time).response_times =
      some (mkResponseTimes
        ((zone_names zonePrefix count pick).map (fun n => (create_zone netC n).2))) ∧
    (deleteZonesWithPrefix netD delPrefix parD wD tD).response_times =
      some (mkResponseTimes
        ((getZonesWithPrefix netD delPrefix).map
          (fun n => (delete_zone netD.deleteResp n).2))) := by
  constructor
  · rw [create_zones_eq_tally]
    show some (mkResponseTimes (tallyResults _).2.2) = _
    rw [tallyResults_times, List.map_map]
    rfl
  · rw [delete_zones_nonempty _ _ _ _ _ hne]
    show some (mkResponseTimes (tallyResults _).2.2) = _
    rw [tallyResults_times, List.map_map]
    rfl

/-- C2 witness: a create batch with one failed call among four, and a delete
batch over a non-empty filtered set. -/
theorem latencies_over_all_records_witness :
    (create_zones netCreate4 "loadtest-" 4 pickIter false 10 9).response_times =
      some (mkResponseTimes
        ((zone_names "loadtest-" 4 pickIter).map (fun n => (create_zone netCreate4 n).2))) ∧
    (deleteZonesWithPrefix netTwoZones "loadtest-" true 10 2).response_times =
      some (mkResponseTimes
        ((getZonesWithPrefix netTwoZones "loadtest-").map
          (fun n => (delete_zone netTwoZones.deleteResp n).2))) :=
  latencies_over_all_records netCreate4 "loadtest-" 4 pickIter false 10 9 netTwoZones
    "loadtest-" true 10 2 (by decide)

/-- C5: the median follows the conventional even-length rule — for a
nonempty even-length duration list it equals the average of the two middle
values of its sorted rearrangement — and a create batch whose per-operation
durations are [0.1, 0.2, 0.3, 0.4] seconds reports median 0.25. -/
theorem median_even_rule (xs sortedXs : List ℚ) (net : String → HttpResult)
    (zonePrefix : String) (pick : Nat → Nat → Fin 36) (parallel : Bool)
    (max_workers : Nat) (total_time : ℚ)
    (hperm : sortedXs.Perm xs) (hsort : sortedXs.Sorted (· ≤ ·))
    (hne : xs ≠ []) (heven : xs.length % 2 = 0)
    (hdur : (zone_names zonePrefix 4 pick).map (fun n => (create_zone net n).2) =
      [1/10, 2/10, 3/10, 4/10]) :
    pyMedian xs =
      (sortedXs.getD (xs.length / 2 - 1) 0 + sortedXs.getD (xs.length / 2) 0) / 2 ∧
    ((create_zones net zonePrefix 4 pick parallel max_workers total_time).response_times).map
      ResponseTimes.median = some (1 / 4) := by
  have hmain : pySorted xs = sortedXs := by
    refine List.eq_of_perm_of_sorted ?_ ?_ hsort
    · exact (List.perm_insertionSort _ xs).trans hperm.symm
    · exact List.sorted_insertionSort _ xs
  constructor
  · have hn0 : ¬ xs.length = 0 := by
      simpa using fun hE => hne (List.length_eq_zero.mp hE)
    have hodd : ¬ xs.length % 2 = 1 := by omega
    simp only [pyMedian, hmain, hperm.length_eq]
    rw [if_neg hn0, if_neg hodd]
  · rw [create_zones_eq_tally]
    show (some (mkResponseTimes (tallyResults _).2.2)).map ResponseTimes.median = _
    rw [tallyResults_times, List.map_map]
    have hd : (zone_names zonePrefix 4 pick).map (Prod.snd ∘ create_zone net) =
        [1/10, 2/10, 3/10, 4/10] := hdur
    rw [hd]
    show some (pyMedian [1/10, 2/10, 3/10, 4/10]) = some (1/4)
    norm_num [pyMedian, pySorted, List.insertionSort, List.orderedInsert]

/-- C5 witness: the already-sorted list [0.1, 0.2, 0.3, 0.4] and the concrete
four-name create batch with those response times. -/
theorem median_even_rule_witness :
    pyMedian [1/10, 2/10, 3/10, 4/10] =
      (([1/10, 2/10, 3/10, 4/10] : List ℚ).getD
          (([1/10, 2/10, 3/10, 4/10] : List ℚ).length / 2 - 1) 0 +
        ([1/10, 2/10, 3/10, 4/10] : List ℚ).getD
          (([1/10, 2/10, 3/10, 4/10] : List ℚ).length / 2) 0) / 2 ∧
    ((create_zones netCreate4 "loadtest-" 4 pickIter false 10 9).response_times).map
      ResponseTimes.median = some (1 / 4) :=
  median_even_rule [1/10, 2/10, 3/10, 4/10] [1/10, 2/10, 3/10, 4/10] netCreate4
    "loadtest-" pickIter false 10 9 (List.Perm.refl _)
    (by norm_num [List.sorted_cons]) (by simp) rfl rfl

/-- C6 (amended): the create batch generates exactly count identifiers, each
the configured prefix, followed by a random 8-character suffix of lowercase
letters and digits, followed by the literal string ".com". -/
theorem create_names_shape (zonePrefix : String) (count : Nat)
    (pick : Nat → Nat → Fin 36) :
    (zone_names zonePrefix count pick).length = count ∧
    ∀ name ∈ zone_names zonePrefix count pick, ∃ s : String,
      s.length = 8 ∧ (∀ c ∈ s.data, c ∈ suffixAlphabet) ∧
      name = zonePrefix ++ s ++ ".com" := by
  refine ⟨zone_names_length _ _ _, ?_⟩
  intro name hname
  simp only [zone_names, List.mem_map, List.mem_range] at hname
  obtain ⟨j, hj, rfl⟩ := hname
  refine ⟨generate_random_suffix (pick j) 8, rfl, ?_, rfl⟩
  intro c hc
  replace hc : c ∈ (List.range 8).map
      (fun i => suffixAlphabet.getD ((pick j) i).val 'a') := hc
  simp only [List.mem_map, List.mem_range] at hc
  obtain ⟨i, hi, rfl⟩ := hc
  have hlt : ((pick j) i).val < suffixAlphabet.length := by
    rw [suffixAlphabet_length]
    exact ((pick j) i).isLt
  exact getD_mem _ _ _ hlt

/-- C6 counterexample: with the all-first-symbol choice oracle the one
generated name is "loadtest-aaaaaaaa.com": the literal ".com" is appended
after the 8-character random suffix, so the name is not the prefix plus an
8-character suffix with nothing else appended. -/
theorem create_names_append_com :
    zone_names "loadtest-" 1 pickFirst = ["loadtest-aaaaaaaa.com"] ∧
    ¬ ∃ s : String, s.length = 8 ∧ "loadtest-aaaaaaaa.com" = "loadtest-" ++ s := by
  refine ⟨rfl, ?_⟩
  rintro ⟨s, hlen, heq⟩
  have hdata : ("loadtest-aaaaaaaa.com" : String).data =
      ("loadtest-" : String).data ++ s.data := congrArg String.data heq
  have hlen2 : ("loadtest-aaaaaaaa.com" : String).data.length =
      ("loadtest-" : String).data.length + s.data.length := by
    rw [hdata, List.length_append]
  have h21 : ("loadtest-aaaaaaaa.com" : String).data.length = 21 := rfl
  have h9 : ("loadtest-" : String).data.length = 9 := rfl
  have h8 : s.data.length = 8 := hlen
  omega

/-- C8: when both --create-only and --delete-only are supplied, main prints
the mutual-exclusion error and exits with code 1; its effect trace contains
no client construction and no HTTP request of any kind. -/
theorem exclusive_flags_exit (args : Args) (net : Network)
    (pick : Nat → Nat → Fin 36) (h1 : args.create_only = true)
    (h2 : args.delete_only = true) :
    mainEvents args net pick =
      [Event.printError "Error: Cannot specify both --create-only and --delete-only",
        Event.exitCode 1] ∧
    Event.constructClient ∉ mainEvents args net pick ∧
    ∀ endpoint : String,
      Event.httpGet endpoint ∉ mainEvents args net pick ∧
      Event.httpPost endpoint ∉ mainEvents args net pick ∧
      Event.httpDelete endpoint ∉ mainEvents args net pick := by
  have hm : mainEvents args net pick =
      [Event.printError "Error: Cannot specify both --create-only and --delete-only",
        Event.exitCode 1] := by
    simp [mainEvents, h1, h2]
  refine ⟨hm, ?_, fun endpoint => ⟨?_, ?_, ?_⟩⟩ <;> · rw [hm]; simp

/-- C8 witness: concrete arguments carrying both flags. -/
theorem exclusive_flags_exit_witness :
    mainEvents argsBoth netNoResponse pickFirst =
      [Event.printError "Error: Cannot specify both --create-only and --delete-only",
        Event.exitCode 1] ∧
    Event.constructClient ∉ mainEvents argsBoth netNoResponse pickFirst ∧
    ∀ endpoint : String,
      Event.httpGet endpoint ∉ mainEvents argsBoth netNoResponse pickFirst ∧
      Event.httpPost endpoint ∉ mainEvents argsBoth netNoResponse pickFirst ∧
      Event.httpDelete endpoint ∉ mainEvents argsBoth netNoResponse pickFirst :=
  exclusive_flags_exit argsBoth netNoResponse pickFirst rfl rfl

end PDNS
